import Mathlib

/-!
Shallow embedding of `src/org_toweosp_paperlessngx_mail_parser/parsers.py`
(class `MailDocumentParser`, method `parse` and its nested helper
functions).  External collaborators (Tika text extraction, Gotenberg
rendering and merging, tesseract OCR, ghostscript, the humanize size
formatter, uuid generation and date formatting) are modelled as oracle
functions gathered in an `Env` record; the decision logic and data flow of
the python source are translated literally.
-/

namespace MailParser

/-- One attachment of a parsed mail message (imap_tools `MailAttachment`).
`filename = ""` models an absent filename (python falsy); `payload` stands
for the raw payload bytes. -/
structure MailAttachment where
  filename : String
  payload : String
  content_type : String
  content_disposition : String
  content_id : String
  size : Nat
deriving DecidableEq, Repr

/-- A parsed mail message (imap_tools `MailMessage`).  `from_values` holds
`from_values.full` (`none` when absent), `to_values` / `cc_values` hold the
`.full` strings of the address lists, and `date_formatted` stands for the
opaque result of `date.astimezone().strftime("%d.%m.%Y %H:%M")` after the
naive-date normalisation. `text` and `html` are `""` when the body is
absent (python falsy). -/
structure MailMessage where
  from_values : Option String
  subject : String
  to_values : List String
  cc_values : List String
  date_formatted : String
  text : String
  html : String
  attachments : List MailAttachment
deriving DecidableEq, Repr

/-- Symbolic handle to a single rendered document file.  `text_mail` and
`html_mail` are the two body renditions (their files are written only when
the matching body is non-empty), `attach_pdf f` an attachment used
directly (sniffed as pdf), `attach_converted f` an attachment after a
successful office conversion, `placeholder msg` a generated one-page note,
`merged l` the output of the merge collaborator on inputs `l`, and
`pdfa d n` the ghostscript PDF/A output for profile number `n`. -/
inductive PageDoc where
  | text_mail : PageDoc
  | html_mail : PageDoc
  | attach_pdf : String → PageDoc
  | attach_converted : String → PageDoc
  | placeholder : String → PageDoc
  | merged : List PageDoc → PageDoc
  | pdfa : PageDoc → Nat → PageDoc

/-- Exceptions that escape the pipeline.  `mergeError s` models an
uncaught failure of the Gotenberg merge collaborator, `ocrError` an
uncaught tesseract `ParseError` (raised outside any try block),
`unboundLocalError` the python `UnboundLocalError` raised by
`if pdfa_number:` when no match case assigned `pdfa_number`, and
`parseError s` an explicit `raise ParseError(...)`. -/
inductive PErr where
  | mergeError : String → PErr
  | ocrError : PErr
  | unboundLocalError : PErr
  | parseError : String → PErr
deriving DecidableEq, Repr

/-- The gotenberg_client `PdfAFormat` values that
`_settings_to_gotenberg_pdfa()` (inherited from the paperless base parser)
can return when not `None`. -/
inductive PdfAFormat where
  | A1a : PdfAFormat
  | A2b : PdfAFormat
  | A3b : PdfAFormat
deriving DecidableEq, Repr

/-- The `MailRule.PdfLayout` values used by the source's `match` statement
(the layout policy of the spec). -/
inductive PdfLayout where
  | TEXT_HTML : PdfLayout
  | HTML_TEXT : PdfLayout
  | HTML_ONLY : PdfLayout
  | TEXT_ONLY : PdfLayout
deriving DecidableEq, Repr

/-- The `MailRule.ConsumptionScope` distinction the source tests:
`consumption_scope != MailRule.ConsumptionScope.EVERYTHING`.  `SEPARATE`
stands for every non-EVERYTHING value (including an absent mail rule). -/
inductive Scope where
  | EVERYTHING : Scope
  | SEPARATE : Scope
deriving DecidableEq, Repr

/-- Oracles for the external collaborators.
`tikaHtml` is `client.tika.as_text.from_buffer(html, "text/html").content`;
`tikaRaw` the same on the entire raw message bytes; `naturalsize` the
humanize size formatter; `uuid` a fresh `str(uuid.uuid4())`; `sniff` is
`magic.from_buffer(payload, mime=True)`; `tesseractTypes` the keys of
`tesseract_consumer_declaration(None)["mime_types"]`; `ocrOrig` /
`ocrConv` run the tesseract parser on the materialised original /
converted file and yield its `.text` (an exception is `.error`); `convert`
is the Gotenberg libre_office route; `merge` the Gotenberg merge route
(errors carry the exception message); `pdf_a_format` the value of
`self._settings_to_gotenberg_pdfa()`; `gsOk` whether the ghostscript
subprocess exits cleanly. -/
structure Env where
  tikaHtml : String → Option String
  tikaRaw : String → Option String
  naturalsize : Nat → String
  uuid : String
  sniff : String → String
  tesseractTypes : List String
  ocrOrig : String → Except Unit String
  ocrConv : String → Except Unit String
  convert : String → Except Unit Unit
  merge : List PageDoc → Except String PageDoc
  pdf_a_format : Option PdfAFormat
  gsOk : Bool

/-- parsers.py lines 113-118 and 253-258 (the identical filter appears in
`get_header` and in `create_attachments_pdfs`): only attachments which are
not inline and not signatures. -/
def real_attachments (atts : List MailAttachment) : List MailAttachment :=
  atts.filter (fun att =>
    decide (att.content_disposition = "attachment" ∧
            att.content_type ≠ "application/x-pkcs7-signature"))

/-- parsers.py lines 87-128, `get_header`: the ordered header entries,
built by successive `append` calls exactly as in the source. -/
def get_header (env : Env) (parsed : MailMessage) : List (String × String) :=
  let header : List (String × String) := []
  let header := header ++ [("From",
    match parsed.from_values with
    | some f => f
    | none => "(NO SENDER PROVIDED)")]
  let header := header ++ [("Subject", parsed.subject)]
  let header := header ++ [("To", String.intercalate "," parsed.to_values)]
  let header := if parsed.cc_values ≠ [] then
      header ++ [("CC", String.intercalate "," parsed.cc_values)]
    else header
  let header := header ++ [("Date", parsed.date_formatted)]
  let real_atts := real_attachments parsed.attachments
  if real_atts ≠ [] then
    header ++ [("Attachments", String.intercalate ", "
      (real_atts.map (fun a =>
        a.filename ++ " (" ++ env.naturalsize a.size ++ ")")))]
  else header

/-- Core of `strip_duplicate_newlines` over the character list of the
string: `re.sub(r"(\n)+", r"\n", text)` replaces each maximal run of one
or more newline characters by a single newline.  The flag records whether
the previous character belonged to a newline run. -/
def collapse : List Char → Bool → List Char
  | [], _ => []
  | c :: rest, prevNl =>
    if c = '\n' then
      if prevNl then collapse rest true else '\n' :: collapse rest true
    else c :: collapse rest false

/-- parsers.py lines 130-131, `strip_duplicate_newlines`. -/
def strip_duplicate_newlines (text : String) : String :=
  String.mk (collapse text.data false)

/-- Python whitespace characters recognised by `str.strip()`. -/
def is_py_space (c : Char) : Bool :=
  c == ' ' || c == '\t' || c == '\n' || c == '\r' || c == '\x0b' || c == '\x0c'

/-- Python `str.strip()`: drop leading and trailing whitespace. -/
def py_strip (s : String) : String :=
  String.mk (((s.data.dropWhile is_py_space).reverse.dropWhile is_py_space).reverse)

/-- Splitting a character list at newline characters; `cur` accumulates
the (reversed) current line. -/
def split_nl : List Char → List Char → List String
  | [], cur => [String.mk cur.reverse]
  | c :: rest, cur =>
    if c = '\n' then String.mk cur.reverse :: split_nl rest []
    else split_nl rest (c :: cur)

/-- Python `str.splitlines()` for newline-delimited text.  It is applied
in the source only to the output of `str.strip()`, which carries no
leading or trailing newline, so splitting at the newline character agrees
with python (`"".splitlines() = []`, no trailing empty piece). -/
def py_splitlines (s : String) : List String :=
  if s = "" then [] else split_nl s.data []

/-- parsers.py lines 133-141, `get_mail_only_content`: the text body
verbatim when truthy, otherwise Tika on the html body, then duplicate
newline collapsing. -/
def get_mail_only_content (env : Env) (parsed : MailMessage) : String :=
  let ret := parsed.text
  let ret := if ret = "" then
      match env.tikaHtml parsed.html with
      | some c => if c = "" then "" else c
      | none => ""
    else ret
  strip_duplicate_newlines ret

/-- parsers.py lines 143-155, `get_mail_and_attachments_content`: Tika on
the entire raw message bytes; when the subject is present and the content
truthy, drop the first line of the stripped content if it has more than
one line, otherwise the empty string. -/
def get_mail_and_attachments_content (env : Env) (subject : String)
    (message_payload : String) : String :=
  let content : Option String := env.tikaRaw message_payload
  let ret : String :=
    if subject ≠ "" ∧ content.getD "" ≠ "" then
      let ret_splitted := py_splitlines (py_strip (content.getD ""))
      if ret_splitted.length > 1 then
        String.intercalate "\n" (ret_splitted.drop 1)
      else ""
    else ""
  strip_duplicate_newlines ret

/-- parsers.py lines 157-161, `create_txt_header`: one `"label: value\n"`
line per header entry, in order. -/
def create_txt_header (header : List (String × String)) : String :=
  header.foldl (fun acc lv => acc ++ lv.1 ++ ": " ++ lv.2 ++ "\n") ""

/-- The note text of parsers.py line 298: the placeholder message for an
attachment whose conversion failed (the filename falls back to the literal
`unknown`, and the declared content type is included). -/
def dummy_msg (attachment : MailAttachment) : String :=
  "The attachment (filename: <b>" ++
    (if attachment.filename ≠ "" then attachment.filename else "unknown") ++
    "</b> content-type: <b>" ++ attachment.content_type ++
    "</b>) could not be converted to PDF."

/-- The labelled section appended to `self.text` for an attachment whose
OCR run yielded truthy text (parsers.py lines 276-277 and 291-292). -/
def section_text (filename : String) (t : String) : String :=
  if t ≠ "" then
    "\n\n= Content attachment: " ++ filename ++ " =\n" ++ t
  else ""

/-- The loop body of parsers.py lines 260-298 for one real attachment:
returns the page document appended to `pdfs` together with the text
appended to `self.text`.  The OCR call on the original file (lines
272-277) sits outside the try block, so its failure propagates
(`.error`); the office conversion and the OCR call on the converted file
(lines 283-294) share one try block whose bare `except` appends the
placeholder. -/
def process_attachment (env : Env) (attachment : MailAttachment) :
    Except PErr (PageDoc × String) :=
  let filename := if attachment.filename ≠ "" then attachment.filename else env.uuid
  let mimetype := env.sniff attachment.payload
  match (if mimetype ∈ env.tesseractTypes then
           (env.ocrOrig attachment.payload).map (section_text filename)
         else Except.ok "") with
  | Except.error _ => Except.error PErr.ocrError
  | Except.ok t1 =>
    if mimetype = "application/pdf" then
      Except.ok (PageDoc.attach_pdf filename, t1)
    else
      match env.convert attachment.payload with
      | Except.error _ =>
          Except.ok (PageDoc.placeholder (dummy_msg attachment), t1)
      | Except.ok _ =>
        match env.ocrConv attachment.payload with
        | Except.error _ =>
            Except.ok (PageDoc.placeholder (dummy_msg attachment), t1)
        | Except.ok t2 =>
            Except.ok (PageDoc.attach_converted filename,
                       t1 ++ section_text filename t2)

/-- Sequential processing of a list of (real) attachments, accumulating
the produced page documents and the text appended to `self.text` in
original order. -/
def process_all (env : Env) : List MailAttachment →
    Except PErr (List PageDoc × String)
  | [] => Except.ok ([], "")
  | a :: rest =>
    match process_attachment env a with
    | Except.error e => Except.error e
    | Except.ok (doc, t) =>
      match process_all env rest with
      | Except.error e => Except.error e
      | Except.ok (docs, ts) => Except.ok (doc :: docs, t ++ ts)

/-- parsers.py lines 249-299, `create_attachments_pdfs`: filter the real
attachments and process each in order. -/
def create_attachments_pdfs (env : Env) (atts : List MailAttachment) :
    Except PErr (List PageDoc × String) :=
  process_all env (real_attachments atts)

/-- The page document produced for one real attachment whenever
`process_attachment` succeeds (its first component): direct use for a
sniffed pdf, the converted document when both the office conversion and
the in-try OCR run succeed, and the placeholder otherwise. -/
def slot_of (env : Env) (attachment : MailAttachment) : PageDoc :=
  let filename := if attachment.filename ≠ "" then attachment.filename else env.uuid
  if env.sniff attachment.payload = "application/pdf" then
    PageDoc.attach_pdf filename
  else
    match env.convert attachment.payload, env.ocrConv attachment.payload with
    | Except.ok _, Except.ok _ => PageDoc.attach_converted filename
    | Except.error _, _ => PageDoc.placeholder (dummy_msg attachment)
    | _, Except.error _ => PageDoc.placeholder (dummy_msg attachment)

/-- parsers.py lines 301-308, `merge_pdfs`: an uncaught collaborator
failure propagates as an exception. -/
def merge_pdfs (env : Env) (pdfs : List PageDoc) : Except PErr PageDoc :=
  match env.merge pdfs with
  | Except.ok d => Except.ok d
  | Except.error s => Except.error (PErr.mergeError s)

/-- parsers.py lines 363-386: which body renditions are placed in
`pdfs_to_merge`.  `create_text_mail_pdf` writes its file only when
`parsed.text` is truthy and `create_html_mail_pdf` only when
`parsed.html` is truthy, so `text_pdf.exists()` / `html_pdf.exists()` are
exactly the two flags passed here (rendering collaborator failures, which
would propagate, are not modelled). -/
def select_bodies (pdf_layout : PdfLayout) (textExists htmlExists : Bool) :
    List PageDoc :=
  match pdf_layout with
  | PdfLayout.TEXT_HTML =>
    if textExists then [PageDoc.text_mail]
    else if htmlExists then [PageDoc.html_mail]
    else []
  | PdfLayout.HTML_TEXT =>
    if htmlExists then [PageDoc.html_mail]
    else if textExists then [PageDoc.text_mail]
    else []
  | PdfLayout.HTML_ONLY =>
    if htmlExists then [PageDoc.html_mail] else []
  | PdfLayout.TEXT_ONLY =>
    if textExists then [PageDoc.text_mail] else []

/-- parsers.py lines 400-432: the PDF/A conversion step.  The python
`match` assigns `pdfa_number` only for `PdfAFormat.A2b` and
`PdfAFormat.A3b`; for any other non-None format the following
`if pdfa_number:` reads an unbound local and raises `UnboundLocalError`,
so the `raise ParseError("... does not support PDF/A version ...")` branch
(reachable only for a bound falsy `pdfa_number`) never runs. -/
def pdfa_step (env : Env) (final_pdf : PageDoc) : Except PErr PageDoc :=
  match env.pdf_a_format with
  | none => Except.ok final_pdf
  | some fmt =>
    let pdfa_number : Option Nat :=
      match fmt with
      | PdfAFormat.A2b => some 2
      | PdfAFormat.A3b => some 3
      | _ => none
    match pdfa_number with
    | none => Except.error PErr.unboundLocalError
    | some n =>
      if n ≠ 0 then
        if env.gsOk then Except.ok (PageDoc.pdfa final_pdf n)
        else Except.error (PErr.parseError "PDF/A generation failed")
      else
        Except.error (PErr.parseError
          "Error creating PDF/A. Ghostscript does not support this PDF/A version")

/-- The two outputs of a successful `parse` call: `self.text` and
`self.archive_path`. -/
structure ParseOut where
  text : String
  archive : PageDoc

/-- Shared tail of the pipeline: run the PDF/A step and package the
outputs. -/
def pdfa_finish (env : Env) (text : String) (final_pdf : PageDoc) :
    Except PErr ParseOut :=
  match pdfa_step env final_pdf with
  | Except.error e => Except.error e
  | Except.ok f => Except.ok (ParseOut.mk text f)

/-- parsers.py lines 391-398 (the `if pdfs:` block inside the Separate
branch), given the already computed body document `final0`, the
`self.text` value `text0` set at line 356, and the outputs of
`create_attachments_pdfs`: a failure of the attachments-group merge is
caught and replaced by a placeholder (lines 394-397), while the final
merge (line 398) is not caught. -/
def after_attachments (env : Env) (text0 : String) (final0 : PageDoc)
    (pdfs : List PageDoc) (atext : String) : Except PErr ParseOut :=
  let text1 := text0 ++ atext
  if pdfs.isEmpty then pdfa_finish env text1 final0
  else
    let attachments_pdf :=
      match env.merge pdfs with
      | Except.ok a => a
      | Except.error e =>
          PageDoc.placeholder
            ("The attachments could not be converted to PDF: " ++ e)
    match merge_pdfs env [final0, attachments_pdf] with
    | Except.error e => Except.error e
    | Except.ok f => pdfa_finish env text1 f

/-- parsers.py lines 66-434, `parse` (decision logic and data flow).
`message_payload` is `document_path.read_bytes()`; `parsed` is the
already-MIME-parsed message (the `MailMessage.from_bytes` collaborator).
Line 356 is `self.text = content + mail_content if mail_content else ""`,
which by python operator precedence is
`(content + mail_content) if mail_content else ""`.  The body group is
merged at line 388 before attachments are processed (lines 389-398), and
a failure of the attachments-group merge is caught and replaced by a
placeholder, while the body-group and final merges are not caught. -/
def parse (env : Env) (parsed : MailMessage) (message_payload : String)
    (pdf_layout : PdfLayout) (consumption_scope : Scope) :
    Except PErr ParseOut :=
  let content := create_txt_header (get_header env parsed)
  let mail_content := get_mail_only_content env parsed
  let text0 := if mail_content ≠ "" then content ++ mail_content else ""
  let pdfs_to_merge :=
    select_bodies pdf_layout (parsed.text ≠ "") (parsed.html ≠ "")
  match merge_pdfs env pdfs_to_merge with
  | Except.error e => Except.error e
  | Except.ok final0 =>
    match consumption_scope with
    | Scope.EVERYTHING => pdfa_finish env text0 final0
    | Scope.SEPARATE =>
      match create_attachments_pdfs env parsed.attachments with
      | Except.error e => Except.error e
      | Except.ok (pdfs, atext) => after_attachments env text0 final0 pdfs atext

/-! ## Helper lemmas -/

theorem collapse_idem (s : List Char) :
    ∀ b : Bool, collapse (collapse s b) b = collapse s b := by
  induction s with
  | nil => intro b; rfl
  | cons c rest ih =>
    intro b
    by_cases hc : c = '\n'
    · subst hc
      cases b with
      | false =>
        show '\n' :: collapse (collapse rest true) true = '\n' :: collapse rest true
        exact congrArg (List.cons '\n') (ih true)
      | true =>
        show collapse (collapse rest true) true = collapse rest true
        exact ih true
    · simp only [collapse, if_neg hc]
      exact congrArg (List.cons c) (ih false)

/-! ## Claim theorems -/

/-- Claim C9: the duplicate-newline collapsing function
`strip_duplicate_newlines` (replacing every run of one or more newline
characters with a single newline) is idempotent: applying it twice yields
the same result as applying it once. -/
theorem c9_strip_duplicate_newlines_idempotent (text : String) :
    strip_duplicate_newlines (strip_duplicate_newlines text) =
      strip_duplicate_newlines text :=
  congrArg String.mk (collapse_idem text.data false)

/-- The body-rendition selection rule exactly as the table of spec §4.5
states it, for comparison with the selection logic of parsers.py lines
370-386 (`select_bodies`). -/
def select_bodies_spec (pdf_layout : PdfLayout) (textExists htmlExists : Bool) :
    List PageDoc :=
  match pdf_layout with
  | PdfLayout.TEXT_HTML =>
    if textExists then [PageDoc.text_mail]
    else if htmlExists then [PageDoc.html_mail] else []
  | PdfLayout.HTML_TEXT =>
    if htmlExists then [PageDoc.html_mail]
    else if textExists then [PageDoc.text_mail] else []
  | PdfLayout.HTML_ONLY =>
    if htmlExists then [PageDoc.html_mail] else []
  | PdfLayout.TEXT_ONLY =>
    if textExists then [PageDoc.text_mail] else []

/-- Claim C6: body-rendition selection is a pure function of the layout
policy and the two existence flags, agrees with the spec table
(text-preferring, html-preferring, html-only, text-only with the stated
fallbacks), and always selects at most one rendition. -/
theorem c6_layout_selection (pdf_layout : PdfLayout) (t h : Bool) :
    select_bodies pdf_layout t h = select_bodies_spec pdf_layout t h ∧
    (select_bodies pdf_layout t h).length ≤ 1 := by
  cases pdf_layout <;> cases t <;> cases h <;>
    simp [select_bodies, select_bodies_spec]

/-- Claim C8: the formatted header is the ordered sequence From, Subject,
To, then CC exactly when the cc list is non-empty, then Date, then an
Attachments entry exactly when at least one real attachment exists, whose
value is the per-attachment strings
`"<filename> (<human-readable binary size>)"` joined by `", "`. -/
theorem c8_header_order (env : Env) (m : MailMessage) :
    get_header env m =
      [("From", match m.from_values with
                | some f => f
                | none => "(NO SENDER PROVIDED)"),
       ("Subject", m.subject),
       ("To", String.intercalate "," m.to_values)] ++
      (if m.cc_values = [] then []
       else [("CC", String.intercalate "," m.cc_values)]) ++
      [("Date", m.date_formatted)] ++
      (if real_attachments m.attachments = [] then []
       else [("Attachments", String.intercalate ", "
         ((real_attachments m.attachments).map (fun a =>
           a.filename ++ " (" ++ env.naturalsize a.size ++ ")")))]) := by
  by_cases hcc : m.cc_values = [] <;>
    by_cases hatt : real_attachments m.attachments = [] <;>
      simp [get_header, hcc, hatt]

/-- An attachment that is inline, or carries the PKCS7 signature content
type, fails the real-attachment test. -/
theorem not_real_of_inline_or_sig (a : MailAttachment)
    (h : a.content_disposition = "inline" ∨
         a.content_type = "application/x-pkcs7-signature") :
    ¬(a.content_disposition = "attachment" ∧
      a.content_type ≠ "application/x-pkcs7-signature") := by
  rcases h with h | h
  · intro hr
    rw [h] at hr
    exact absurd hr.1 (by decide)
  · intro hr
    exact hr.2 h

/-- Removing every copy of a non-real attachment leaves the
real-attachment list unchanged. -/
theorem real_attachments_filter_ne (l : List MailAttachment)
    (a : MailAttachment)
    (hnr : ¬(a.content_disposition = "attachment" ∧
             a.content_type ≠ "application/x-pkcs7-signature")) :
    real_attachments (l.filter (fun x => decide (x ≠ a))) =
      real_attachments l := by
  induction l with
  | nil => rfl
  | cons x rest ih =>
    by_cases hx : x = a
    · subst hx
      have h0 : decide (x.content_disposition = "attachment" ∧
          x.content_type ≠ "application/x-pkcs7-signature") = false := by
        simpa using hnr
      have h1 : List.filter (fun y => decide (y ≠ x)) (x :: rest) =
          List.filter (fun y => decide (y ≠ x)) rest := by
        rw [List.filter_cons]
        simp
      unfold real_attachments at ih ⊢
      rw [h1, ih, List.filter_cons, h0]
      simp
    · have h1 : List.filter (fun y => decide (y ≠ a)) (x :: rest) =
          x :: List.filter (fun y => decide (y ≠ a)) rest := by
        rw [List.filter_cons]
        simp [hx]
      unfold real_attachments at ih ⊢
      rw [h1, List.filter_cons, List.filter_cons, ih]

/-- Claim C7: an attachment with inline disposition or with the PKCS7
signature declared content type is never a real attachment, and dropping
all its copies changes neither the formatted header (and hence its
Attachments summary) nor the attachment-merge path of
`create_attachments_pdfs`. -/
theorem c7_non_real_excluded (env : Env) (m : MailMessage)
    (a : MailAttachment)
    (h : a.content_disposition = "inline" ∨
         a.content_type = "application/x-pkcs7-signature") :
    a ∉ real_attachments m.attachments ∧
    get_header env
      { m with attachments := m.attachments.filter (fun x => decide (x ≠ a)) } =
      get_header env m ∧
    create_attachments_pdfs env (m.attachments.filter (fun x => decide (x ≠ a))) =
      create_attachments_pdfs env m.attachments := by
  have hnr := not_real_of_inline_or_sig a h
  have hreal := real_attachments_filter_ne m.attachments a hnr
  refine ⟨?_, ?_, ?_⟩
  · intro hmem
    exact hnr (by simpa [real_attachments] using (List.mem_filter.mp hmem).2)
  · simp only [get_header, hreal]
  · simp only [create_attachments_pdfs, hreal]

/-- A concrete inline attachment, a concrete real attachment, and a
message holding both, used to instantiate claim C7. -/
def att_inline : MailAttachment :=
  { filename := "logo.png", payload := "PNGDATA",
    content_type := "image/png", content_disposition := "inline",
    content_id := "logo", size := 10 }

def att_real : MailAttachment :=
  { filename := "doc.pdf", payload := "PDFDATA",
    content_type := "application/pdf", content_disposition := "attachment",
    content_id := "", size := 1024 }

def env0 : Env :=
  { tikaHtml := fun _ => none, tikaRaw := fun _ => none,
    naturalsize := fun n => toString n ++ " Bytes", uuid := "u0",
    sniff := fun _ => "application/pdf", tesseractTypes := [],
    ocrOrig := fun _ => Except.ok "", ocrConv := fun _ => Except.ok "",
    convert := fun _ => Except.ok (),
    merge := fun l => if l.isEmpty then Except.error "merge: no input files"
                      else Except.ok (PageDoc.merged l),
    pdf_a_format := none, gsOk := true }

def msg_c7 : MailMessage :=
  { from_values := some "Alice <alice@example.com>", subject := "Hi",
    to_values := ["Bob <bob@example.com>"], cc_values := [],
    date_formatted := "01.01.2020 00:00", text := "hello", html := "",
    attachments := [att_inline, att_real] }

/-- Witness for claim C7 at a concrete message containing one inline and
one real attachment. -/
theorem c7_non_real_excluded_witness :
    att_inline.content_disposition = "inline" ∧
    (att_inline ∉ real_attachments msg_c7.attachments ∧
     get_header env0
       { msg_c7 with attachments :=
           msg_c7.attachments.filter (fun x => decide (x ≠ att_inline)) } =
       get_header env0 msg_c7 ∧
     create_attachments_pdfs env0
         (msg_c7.attachments.filter (fun x => decide (x ≠ att_inline))) =
       create_attachments_pdfs env0 msg_c7.attachments) :=
  ⟨rfl, c7_non_real_excluded env0 msg_c7 att_inline (Or.inl rfl)⟩

/-- Whenever the per-attachment processing succeeds, the page document it
appends is `slot_of`. -/
theorem process_attachment_fst (env : Env) (a : MailAttachment)
    (d : PageDoc) (t : String)
    (h : process_attachment env a = Except.ok (d, t)) :
    d = slot_of env a := by
  simp only [process_attachment] at h
  simp only [slot_of]
  split at h
  · exact absurd h (by simp)
  · split at h
    next hp =>
      rw [if_pos hp]
      simp only [Except.ok.injEq, Prod.mk.injEq] at h
      exact h.1.symm
    next hp =>
      rw [if_neg hp]
      split at h
      next hc =>
        cases ho : env.ocrConv a.payload with
        | error e2 =>
          rw [hc]
          simp only [Except.ok.injEq, Prod.mk.injEq] at h
          exact h.1.symm
        | ok t3 =>
          rw [hc]
          simp only [Except.ok.injEq, Prod.mk.injEq] at h
          exact h.1.symm
      next u hc =>
        rw [hc]
        split at h
        next ho =>
          rw [ho]
          simp only [Except.ok.injEq, Prod.mk.injEq] at h
          exact h.1.symm
        next t2 ho =>
          rw [ho]
          simp only [Except.ok.injEq, Prod.mk.injEq] at h
          exact h.1.symm

/-- Whenever the sequential attachment processing succeeds, the produced
page documents are exactly the per-attachment slots in input order. -/
theorem process_all_ok (env : Env) (l : List MailAttachment)
    (pdfs : List PageDoc) (t : String)
    (h : process_all env l = Except.ok (pdfs, t)) :
    pdfs = l.map (slot_of env) := by
  induction l generalizing pdfs t with
  | nil =>
    simp only [process_all] at h
    simp only [Except.ok.injEq, Prod.mk.injEq] at h
    simp [h.1.symm]
  | cons a rest ih =>
    simp only [process_all] at h
    cases hpa : process_attachment env a with
    | error e => rw [hpa] at h; exact absurd h (by simp)
    | ok p =>
      rw [hpa] at h
      cases hrest : process_all env rest with
      | error e => rw [hrest] at h; exact absurd h (by simp)
      | ok q =>
        rw [hrest] at h
        simp only [Except.ok.injEq, Prod.mk.injEq] at h
        rw [List.map_cons, ← h.1,
          ← process_attachment_fst env a p.1 p.2 (by rw [hpa]),
          ← ih q.1 q.2 (by rw [hrest])]

/-- Claim C5: whenever `create_attachments_pdfs` produces the attachments
group, it contains exactly one page-document slot per real attachment, in
original attachment order (the slot list is the pointwise image of the
real-attachment list), and every real attachment whose conversion to the
archival page format fails gets the placeholder page stating its filename
and declared content type. -/
theorem c5_attachment_slots (env : Env) (atts : List MailAttachment)
    (pdfs : List PageDoc) (atext : String)
    (h : create_attachments_pdfs env atts = Except.ok (pdfs, atext)) :
    pdfs = (real_attachments atts).map (slot_of env) ∧
    pdfs.length = (real_attachments atts).length ∧
    ∀ a ∈ real_attachments atts,
      env.sniff a.payload ≠ "application/pdf" →
      env.convert a.payload = Except.error () →
      slot_of env a = PageDoc.placeholder (dummy_msg a) := by
  have hmap := process_all_ok env (real_attachments atts) pdfs atext h
  refine ⟨hmap, by rw [hmap, List.length_map], ?_⟩
  intro a _ hs hc
  simp only [slot_of, if_neg hs, hc]

/-- A corrupted word attachment whose office conversion fails, and an
environment where the conversion collaborator rejects it. -/
def att_word : MailAttachment :=
  { filename := "report.docx", payload := "DOCXDATA",
    content_type :=
      "application/vnd.openxmlformats-officedocument.wordprocessingml.document",
    content_disposition := "attachment", content_id := "", size := 2048 }

def env_conv_fail : Env :=
  { env0 with sniff := fun _ => "application/vnd.ms-word",
              convert := fun _ => Except.error () }

/-- Witness for claim C5: one real attachment whose conversion fails
yields exactly one slot, filled by the placeholder. -/
theorem c5_attachment_slots_witness :
    create_attachments_pdfs env_conv_fail [att_word] =
      Except.ok ([PageDoc.placeholder (dummy_msg att_word)], "") ∧
    ([PageDoc.placeholder (dummy_msg att_word)] =
        (real_attachments [att_word]).map (slot_of env_conv_fail) ∧
      [PageDoc.placeholder (dummy_msg att_word)].length =
        (real_attachments [att_word]).length ∧
      ∀ a ∈ real_attachments [att_word],
        env_conv_fail.sniff a.payload ≠ "application/pdf" →
        env_conv_fail.convert a.payload = Except.error () →
        slot_of env_conv_fail a = PageDoc.placeholder (dummy_msg a)) :=
  ⟨rfl, c5_attachment_slots env_conv_fail [att_word]
    [PageDoc.placeholder (dummy_msg att_word)] "" rfl⟩

/-- Claim C10: for a real attachment that is not already in the archival
page format and whose office conversion succeeds, a failure of the
subsequent in-try OCR step makes the slot the placeholder page-document
instead of the successfully converted document (the OCR call sits in the
same recovery block as the conversion). -/
theorem c10_ocr_failure_placeholder (env : Env) (a : MailAttachment)
    (h1 : env.sniff a.payload ∉ env.tesseractTypes)
    (h2 : env.sniff a.payload ≠ "application/pdf")
    (h3 : env.convert a.payload = Except.ok ())
    (h4 : env.ocrConv a.payload = Except.error ()) :
    process_attachment env a =
      Except.ok (PageDoc.placeholder (dummy_msg a), "") := by
  simp only [process_attachment, if_neg h1, if_neg h2, h3, h4]

/-- An environment where the office conversion succeeds but the
subsequent OCR run on the converted document raises. -/
def env_ocr_fail : Env :=
  { env0 with sniff := fun _ => "application/vnd.ms-word",
              convert := fun _ => Except.ok (),
              ocrConv := fun _ => Except.error () }

/-- Witness for claim C10 at a concrete attachment: conversion succeeds,
OCR on the converted file fails, and the slot is the placeholder. -/
theorem c10_ocr_failure_placeholder_witness :
    env_ocr_fail.sniff att_word.payload ∉ env_ocr_fail.tesseractTypes ∧
    env_ocr_fail.convert att_word.payload = Except.ok () ∧
    env_ocr_fail.ocrConv att_word.payload = Except.error () ∧
    process_attachment env_ocr_fail att_word =
      Except.ok (PageDoc.placeholder (dummy_msg att_word), "") :=
  ⟨by decide, rfl, rfl,
    c10_ocr_failure_placeholder env_ocr_fail att_word (by decide)
      (by decide) rfl rfl⟩

/-- A successful `pdfa_finish` returns exactly the text it was given. -/
theorem pdfa_finish_ok_text (env : Env) (t : String) (f : PageDoc)
    (out : ParseOut) (h : pdfa_finish env t f = Except.ok out) :
    out.text = t := by
  simp only [pdfa_finish] at h
  split at h
  · exact absurd h (by simp)
  · simp only [Except.ok.injEq] at h
    rw [← h]

/-- A successful attachments stage returns the line-356 text followed by
the OCR sections collected from the attachments. -/
theorem after_attachments_ok_text (env : Env) (t : String) (f : PageDoc)
    (pdfs : List PageDoc) (atext : String) (out : ParseOut)
    (h : after_attachments env t f pdfs atext = Except.ok out) :
    out.text = t ++ atext := by
  simp only [after_attachments] at h
  split at h
  · exact pdfa_finish_ok_text env _ f out h
  · split at h
    · exact absurd h (by simp)
    · exact pdfa_finish_ok_text env _ _ out h

/-- Claim C1 (amended): the extracted body text never depends on the raw
message bytes or on the scope policy — `parse` uses
`get_mail_only_content` for every invocation, i.e. the newline-collapsed
text body when non-empty and otherwise the newline-collapsed output of the
text-extraction collaborator on the HTML body; the whole-raw-message
extraction `get_mail_and_attachments_content` is never invoked. -/
theorem c1_amended (env : Env) (m : MailMessage) (p1 p2 : String)
    (pdf_layout : PdfLayout) (scope : Scope) :
    parse env m p1 pdf_layout scope = parse env m p2 pdf_layout scope ∧
    get_mail_only_content env m =
      strip_duplicate_newlines
        (if m.text ≠ "" then m.text else (env.tikaHtml m.html).getD "") := by
  constructor
  · rfl
  · simp only [get_mail_only_content, ne_eq]
    by_cases ht : m.text = ""
    · rw [ht]
      apply congrArg strip_duplicate_newlines
      rw [if_pos rfl, if_neg (fun hne => hne rfl)]
      cases env.tikaHtml m.html with
      | none => rfl
      | some c =>
        show (if c = "" then "" else c) = c
        by_cases hc : c = ""
        · rw [if_pos hc, hc]
        · rw [if_neg hc]
    · apply congrArg strip_duplicate_newlines
      rw [if_neg ht, if_pos ht]

/-- An environment whose whole-message text extraction would return a
subject line followed by the body line `WORLD`, and a message whose text
body is `hello`: the pipeline keeps `hello`. -/
def env_raw : Env :=
  { env0 with tikaRaw := fun _ => some "Subj\nWORLD" }

def msg_c1 : MailMessage :=
  { from_values := some "Alice <alice@example.com>", subject := "Subj",
    to_values := ["Bob <bob@example.com>"], cc_values := [],
    date_formatted := "01.01.2020 00:00", text := "hello", html := "",
    attachments := [] }

/-- Counterexample to claim C1 as stated: in a Separate-scope invocation
the extracted text is the header followed by the text body `hello` taken
from `get_mail_only_content`, not the `WORLD` that running the raw bytes
through the text-extraction collaborator (first line stripped) would
give. -/
theorem c1_counterexample :
    parse env_raw msg_c1 "rawbytes" PdfLayout.TEXT_HTML Scope.SEPARATE =
      Except.ok (ParseOut.mk
        (create_txt_header (get_header env_raw msg_c1) ++ "hello")
        (PageDoc.merged [PageDoc.text_mail])) ∧
    get_mail_and_attachments_content env_raw msg_c1.subject "rawbytes" =
      "WORLD" ∧
    (get_mail_only_content env_raw msg_c1 ==
      get_mail_and_attachments_content env_raw msg_c1.subject "rawbytes") =
      false := by
  refine ⟨?_, rfl, rfl⟩
  rfl

/-- Claim C2 (amended): when the message has neither a text body nor an
HTML body the body rendition group is empty, and `parse` hands that empty
group to the merge collaborator before attachments are even considered,
so the invocation fails whenever the merge collaborator rejects an empty
input — regardless of scope, layout, or how many real attachments
exist. -/
theorem c2_amended (env : Env) (m : MailMessage) (payload : String)
    (pdf_layout : PdfLayout) (scope : Scope) (s : String)
    (h1 : m.text = "") (h2 : m.html = "")
    (h3 : env.merge [] = Except.error s) :
    select_bodies pdf_layout (m.text ≠ "") (m.html ≠ "") = [] ∧
    parse env m payload pdf_layout scope =
      Except.error (PErr.mergeError s) := by
  have hsel : select_bodies pdf_layout (m.text ≠ "") (m.html ≠ "") = [] := by
    rw [h1, h2]
    cases pdf_layout <;> simp [select_bodies]
  refine ⟨hsel, ?_⟩
  simp only [parse, hsel, merge_pdfs, h3]

/-- A bodyless message carrying one real pdf attachment. -/
def msg_nobody : MailMessage :=
  { from_values := some "Alice <alice@example.com>", subject := "Hi",
    to_values := ["Bob <bob@example.com>"], cc_values := [],
    date_formatted := "01.01.2020 00:00", text := "", html := "",
    attachments := [att_real] }

/-- Witness for the amended claim C2 at a concrete bodyless message with
one real attachment. -/
theorem c2_amended_witness :
    msg_nobody.text = "" ∧ msg_nobody.html = "" ∧
    env0.merge [] = Except.error "merge: no input files" ∧
    (select_bodies PdfLayout.TEXT_HTML (msg_nobody.text ≠ "")
        (msg_nobody.html ≠ "") = [] ∧
      parse env0 msg_nobody "raw" PdfLayout.TEXT_HTML Scope.SEPARATE =
        Except.error (PErr.mergeError "merge: no input files")) :=
  ⟨rfl, rfl, rfl,
    c2_amended env0 msg_nobody "raw" PdfLayout.TEXT_HTML Scope.SEPARATE
      "merge: no input files" rfl rfl rfl⟩

/-- Counterexample to claim C2 as stated: a message with neither body but
with one real attachment does not proceed to the attachment stage — the
invocation fails at the body-group merge (the merge collaborator cannot
produce a document from an empty input), so the pipeline fails solely
because the body group is empty. -/
theorem c2_counterexample :
    (real_attachments msg_nobody.attachments).isEmpty = false ∧
    msg_nobody.text = "" ∧ msg_nobody.html = "" ∧
    parse env0 msg_nobody "raw" PdfLayout.TEXT_HTML Scope.SEPARATE =
      Except.error (PErr.mergeError "merge: no input files") :=
  ⟨rfl, rfl, rfl, rfl⟩

/-- Claim C3 (amended): line 356 of the source is
`self.text = content + mail_content if mail_content else ""`, which python
parses as `(content + mail_content) if mail_content else ""`.  Hence the
final extractedText of a successful invocation is the plain-text header
immediately followed by the extracted body content (no separator beyond
the header's own trailing newline) when that body content is non-empty —
but it is the empty string, with no header, when the body content is
empty; under Separate scope the per-attachment OCR sections are appended
after it. -/
theorem c3_amended (env : Env) (m : MailMessage) (payload : String)
    (pdf_layout : PdfLayout) (scope : Scope) (out : ParseOut)
    (h : parse env m payload pdf_layout scope = Except.ok out) :
    (scope = Scope.EVERYTHING →
      out.text = (if get_mail_only_content env m ≠ "" then
        create_txt_header (get_header env m) ++ get_mail_only_content env m
      else "")) ∧
    (∀ pdfs atext, scope = Scope.SEPARATE →
      create_attachments_pdfs env m.attachments = Except.ok (pdfs, atext) →
      out.text = (if get_mail_only_content env m ≠ "" then
        create_txt_header (get_header env m) ++ get_mail_only_content env m
      else "") ++ atext) := by
  simp only [parse] at h
  split at h
  · exact absurd h (by simp)
  · constructor
    · intro hs
      subst hs
      exact pdfa_finish_ok_text env _ _ out h
    · intro pdfs atext hs hca
      subst hs
      rw [hca] at h
      exact after_attachments_ok_text env _ _ pdfs atext out h

/-- A message with no text body and an HTML body whose text extraction
yields the empty string: the body content is empty while the header is
not. -/
def env_empty_html : Env :=
  { env0 with tikaHtml := fun _ => some "" }

def msg_c3 : MailMessage :=
  { from_values := some "Alice <alice@example.com>", subject := "Hi",
    to_values := ["Bob <bob@example.com>"], cc_values := [],
    date_formatted := "01.01.2020 00:00", text := "",
    html := "<p></p>", attachments := [] }

/-- Counterexample to claim C3 as stated: on a message whose extracted
body content is empty the pipeline succeeds with extractedText equal to
the empty string, while the plain-text header is non-empty — the header
is not present. -/
theorem c3_counterexample :
    parse env_empty_html msg_c3 "raw" PdfLayout.TEXT_HTML
        Scope.EVERYTHING =
      Except.ok (ParseOut.mk "" (PageDoc.merged [PageDoc.html_mail])) ∧
    (create_txt_header (get_header env_empty_html msg_c3) == "") = false :=
  ⟨rfl, rfl⟩

/-- A message with a text body, for exercising the non-empty branch of
the amended claim C3. -/
def msg_hi : MailMessage :=
  { from_values := some "Alice <alice@example.com>", subject := "Hi",
    to_values := ["Bob <bob@example.com>"], cc_values := [],
    date_formatted := "01.01.2020 00:00", text := "hi there", html := "",
    attachments := [] }

/-- Witness for the amended claim C3 at a concrete successful
Everything-scope invocation. -/
theorem c3_amended_witness :
    parse env0 msg_hi "raw" PdfLayout.TEXT_HTML Scope.EVERYTHING =
      Except.ok (ParseOut.mk
        (create_txt_header (get_header env0 msg_hi) ++ "hi there")
        (PageDoc.merged [PageDoc.text_mail])) ∧
    (ParseOut.mk
        (create_txt_header (get_header env0 msg_hi) ++ "hi there")
        (PageDoc.merged [PageDoc.text_mail])).text =
      (if get_mail_only_content env0 msg_hi ≠ "" then
        create_txt_header (get_header env0 msg_hi) ++
          get_mail_only_content env0 msg_hi
      else "") :=
  ⟨rfl,
    (c3_amended env0 msg_hi "raw" PdfLayout.TEXT_HTML Scope.EVERYTHING
      (ParseOut.mk
        (create_txt_header (get_header env0 msg_hi) ++ "hi there")
        (PageDoc.merged [PageDoc.text_mail])) rfl).1 rfl⟩

/-- Environments requesting the three possible PDF/A conformance
levels. -/
def env_b2 : Env := { env0 with pdf_a_format := some PdfAFormat.A2b }

def env_b3 : Env := { env0 with pdf_a_format := some PdfAFormat.A3b }

def env_a1 : Env := { env0 with pdf_a_format := some PdfAFormat.A1a }

/-- Claim C4, evaluated on the embedded code: level B2 maps to
ghostscript profile number 2 and level B3 to profile number 3, but a
requested level outside these two mappings (here PDF/A-1a, which the
paperless settings can request) makes the python `match` leave
`pdfa_number` unassigned, so `if pdfa_number:` raises `UnboundLocalError`
— not the descriptive `ParseError` of the dead `else` branch — and no
archive is produced. -/
theorem c4_pdfa_mapping :
    pdfa_step env_b2 PageDoc.text_mail =
      Except.ok (PageDoc.pdfa PageDoc.text_mail 2) ∧
    pdfa_step env_b3 PageDoc.text_mail =
      Except.ok (PageDoc.pdfa PageDoc.text_mail 3) ∧
    pdfa_step env_a1 PageDoc.text_mail =
      Except.error PErr.unboundLocalError ∧
    parse env_a1 msg_hi "raw" PdfLayout.TEXT_HTML Scope.EVERYTHING =
      Except.error PErr.unboundLocalError :=
  ⟨rfl, rfl, rfl, rfl⟩

end MailParser
